import Mathlib

/-!
Verification of the proxy-lib repository's specification against a shallow
embedding of its source.

The embedding covers three Go packages seen in the source tree:

* `configuration` (src/configuration/context.go, lines 1-65): the execution
  context resolver (`Context`, `Host`).
* `proxy` (src/configuration/context.go, lines 87-408): the proxy
  orchestrator (`prepareConfiguration`, `Prepare`).  Its helper functions
  from the `service-lib` configuration package (`GetFreePort`,
  `Service.SetController`, the `ProxyType`/`UnknownType` constants and the
  `Service` struct itself) are not part of the source tree; they are
  modelled from the spec and marked as such in their doc comments.
* `sds` (src/unnamed/part_000, lines 243-331): the topology model
  (`Service`, `Validate`, `GetController`, `GetExtension`).  The membership
  checks `ValidateServiceType` / `ValidateControllerType` are not in the
  source tree and are modelled from the spec.
* `categorizer` (src/unnamed/part_000, lines 25-68): the producer loop
  (`Manager.categorize`), embedded as an event-trace interpreter, and an
  interleaving model of its mutex-guarded send path.

Go struct fields named `Type` are rendered `Type'` because `Type` is a
reserved word in Lean.  Go machine strings are Lean `String`, Go `uint64`
ports are Lean `Nat` (no arithmetic is performed on them, so no overflow
reduction is needed).
-/

namespace configuration

/-- Go: `type ContextType = string` (src/configuration/context.go line 7). -/
abbrev ContextType := String

/-- Go: `const DevContext ContextType = "development"` (line 14). -/
def DevContext : ContextType := "development"

/-- Go: `const DefaultContext ContextType = "default"` (line 18). -/
def DefaultContext : ContextType := "default"

/-- Go: `type Context struct` (src/configuration/context.go lines 21-26). -/
structure Context where
  Type' : ContextType
  Src : String
  Bin : String
  Data : String
deriving DecidableEq, Repr

/-- Go: `func (context *Context) Host() string` (lines 60-65): the receiver is
only read, so the method embeds as a pure function. -/
def Context.Host (context : Context) : String :=
  if context.Type' = DevContext then "localhost" else "0.0.0.0"

end configuration

namespace sds

/-- Go: `type ControllerInstance struct` (src/unnamed/part_000 lines 249-252). -/
structure ControllerInstance where
  Port : Nat
  Instance : String
deriving DecidableEq, Repr

/-- Go: `type Controller struct` (src/unnamed/part_000 lines 254-258). -/
structure Controller where
  Type' : String
  Name : String
  Instances : List ControllerInstance
deriving DecidableEq, Repr

/-- Go: `type Proxy struct` (src/unnamed/part_000 lines 260-263). -/
structure Proxy where
  Name : String
  Port : Nat
deriving DecidableEq, Repr

/-- Go: `type Extension struct` (src/unnamed/part_000 lines 265-268). -/
structure Extension where
  Name : String
  Port : Nat
deriving DecidableEq, Repr

/-- Go: `type Service struct` (src/unnamed/part_000 lines 271-279). -/
structure Service where
  Type' : String
  Name : String
  Instance : String
  Controllers : List Controller
  Proxies : List Proxy
  Extensions : List Extension
  Pipelines : List String
deriving DecidableEq, Repr

/-- Modelled from the spec: `ValidateServiceType` is called by
`Service.Validate` (src/unnamed/part_000 line 283) but its definition is not
under src/.  The spec says the "service type must be one of the recognized
set" and that the check fails with a descriptive error otherwise; modelled
as membership in a closed list of recognized service types, producing an
error message that quotes the offending type. -/
def serviceTypes : List String := ["independent", "proxy", "extension"]

/-- Modelled from the spec: see `serviceTypes`. -/
def ValidateServiceType (t : String) : Option String :=
  if serviceTypes.contains t then none
  else some ("'" ++ t ++ "' is an invalid service type")

/-- Modelled from the spec: `ValidateControllerType` is called by
`Service.Validate` (src/unnamed/part_000 line 288) on the controller's
discipline type only; its definition is not under src/.  The spec recognizes
the request-reply and push-pull disciplines; modelled as membership in a
closed list, producing an error message that quotes the offending type.
The argument is the discipline type alone, exactly as at the call site. -/
def controllerTypes : List String := ["replier", "pusher"]

/-- Modelled from the spec: see `controllerTypes`. -/
def ValidateControllerType (t : String) : Option String :=
  if controllerTypes.contains t then none
  else some ("'" ++ t ++ "' is an invalid controller type")

/-- The controller loop of `Service.Validate` (src/unnamed/part_000
lines 287-291): first controller whose discipline type fails
`ValidateControllerType` aborts with the wrapped error. -/
def validateControllers : List Controller → Option String
  | [] => none
  | c :: rest =>
    match ValidateControllerType c.Type' with
    | some e => some ("controller.ValidateControllerType: " ++ e)
    | none => validateControllers rest

/-- Go: `func (s *Service) Validate() error` (src/unnamed/part_000
lines 282-294).  The method reads the receiver and writes nothing, so it
embeds as a pure function from the service to the optional error. -/
def Service.Validate (s : Service) : Option String :=
  match ValidateServiceType s.Type' with
  | some e => some ("identity.ValidateServiceType: " ++ e)
  | none => validateControllers s.Controllers

/-- Go: `func (s *Service) GetController(name string)` (src/unnamed/part_000
lines 298-306): first controller with the requested name, or an error that
quotes the requested name and the service name. -/
def Service.GetController (s : Service) (name : String) : Except String Controller :=
  match s.Controllers.find? (fun c => c.Name = name) with
  | some c => Except.ok c
  | none =>
      Except.error ("'" ++ name ++ "' controller was not found in '" ++ s.Name ++
        "' service's configuration")

/-- Go: `func (s *Service) GetFirstController()` (src/unnamed/part_000
lines 310-317). -/
def Service.GetFirstController (s : Service) : Except String Controller :=
  match s.Controllers with
  | [] => Except.error ("service '" ++ s.Name ++ "' doesn't have any controllers in yaml file")
  | c :: _ => Except.ok c

/-- Go: `func (s *Service) GetExtension(name string)` (src/unnamed/part_000
lines 321-329). -/
def Service.GetExtension (s : Service) (name : String) : Except String Extension :=
  match s.Extensions.find? (fun e => e.Name = name) with
  | some e => Except.ok e
  | none =>
      Except.error ("'" ++ name ++ "' extension was not found in '" ++ s.Name ++
        "' service's configuration")

end sds

namespace proxy

/-- Go: `const SourceName = "source"` (src/configuration/context.go line 110). -/
def SourceName : String := "source"

/-- Go: `const DestinationName = "destination"` (src/configuration/context.go
line 113). -/
def DestinationName : String := "destination"

/-- Modelled from the spec: `configuration.ProxyType` of the service-lib
configuration package is not under src/; the spec says an empty service type
"is synthesized as \"proxy\"". -/
def ProxyType : String := "proxy"

/-- Modelled from the spec: `configuration.UnknownType` is not under src/;
it is the value of `Controller.requiredDestination` before
`RequireDestination` was called ("Prepare() fails if no source or no
required-destination type has been set"), i.e. the zero value of a Go
string-typed discipline type. -/
def UnknownType : String := ""

/-- Modelled from the spec: `configuration.ControllerInstance` of the
service-lib configuration package is not under src/; its fields are the ones
the proxy code populates (src/configuration/context.go lines 223-227):
name, instance identifier and numeric port, matching the spec's
ControllerInstance entity. -/
structure ControllerInstance where
  Name : String
  Instance : String
  Port : Nat
deriving DecidableEq, Repr

/-- Modelled from the spec: `configuration.Controller` of the service-lib
configuration package is not under src/; per the spec a ControllerConfig is
a discipline type, a name and an ordered list of instances, matching the
fields the proxy code reads and writes. -/
structure Controller where
  Type' : String
  Name : String
  Instances : List ControllerInstance
deriving DecidableEq, Repr

/-- Modelled from the spec: `configuration.Service` of the service-lib
configuration package is not under src/; per the spec a ServiceConfig is a
service type, a name, an instance id and ordered lists of controllers,
proxies, extensions and pipeline names; the proxy code additionally reads
and writes its `Url` field (src/configuration/context.go lines 171, 371).
Proxies and extensions are kept as name/port pairs and pipelines as names,
which is all the code under verification ever touches. -/
structure Service where
  Type' : String
  Name : String
  Url : String
  Instance : String
  Controllers : List Controller
  Proxies : List String
  Extensions : List String
  Pipelines : List String
deriving DecidableEq, Repr

/-- Modelled from the spec: `configuration.Config` is not under src/; the
proxy code reads its `Name` (src/configuration/context.go line 172), its
`Service` (line 162, written back at line 252) and its free-port allocator.
`nextFreePort` is the allocator state, see `Config.GetFreePort`. -/
structure Config where
  Name : String
  Service : Service
  nextFreePort : Nat
deriving DecidableEq, Repr

/-- Modelled from the spec: `Config.GetFreePort` is not under src/; the spec
says a missing instance is "synthesized with a freshly allocated free port".
Modelled as a counter: each call returns a fresh, non-zero port and advances
the allocator state, so consecutively allocated ports are distinct. -/
def Config.GetFreePort (config : Config) : Nat × Config :=
  (config.nextFreePort + 1, { config with nextFreePort := config.nextFreePort + 1 })

/-- Modelled from the spec: `Service.SetController` is not under src/; per
the spec's ServiceConfig lifecycle the orchestrator stores the completed
controller config under its name, replacing a declared controller of the
same name or appending a new entry. -/
def setControllerList : List Controller → Controller → List Controller
  | [], c => [c]
  | x :: xs, c => if x.Name = c.Name then c :: xs else x :: setControllerList xs c

/-- Modelled from the spec: see `setControllerList`. -/
def Service.SetController (s : Service) (c : Controller) : Service :=
  { s with Controllers := setControllerList s.Controllers c }

/-- The controller scan of `prepareConfiguration` (src/configuration/context.go
lines 182-188): one pass over the controllers, repeatedly overwriting the
local variable on a name match, so the last controller bearing the name
wins; the zero-value `Controller` if none does. -/
def lastNamed (name : String) (cs : List Controller) : Controller :=
  cs.foldl (fun acc c => if c.Name = name then c else acc) ⟨"", "", []⟩

/-- The service-type block of `prepareConfiguration`
(src/configuration/context.go lines 163-176): an empty declared type is
replaced by a freshly constructed service of type proxy (discarding the
declared one); a non-empty type other than proxy is a configuration error.
`exePath` stands for the result of `configuration.GetCurrentPath()`. -/
def serviceTypeCheck (exePath : String) (config : Config) : Except String Service :=
  if config.Service.Type' = "" then
    Except.ok
      { Type' := ProxyType, Name := "", Url := exePath,
        Instance := config.Name ++ " 1",
        Controllers := [], Proxies := [], Extensions := [], Pipelines := [] }
  else if config.Service.Type' ≠ ProxyType then
    Except.error ("service type is overwritten. It's not proxy its '" ++
      config.Service.Type' ++ "'")
  else
    Except.ok config.Service

/-- The controller-type blocks of `prepareConfiguration`
(src/configuration/context.go lines 190-216), identical for source and
destination up to the expected type and the reserved name: an empty declared
type is replaced by a synthesized controller appended to the list; a
non-empty type different from the expected one is an error.  Returns the
(possibly synthesized) controller together with the updated controller
list. -/
def completeControllerType (expected name : String) (declared : Controller)
    (ctrls : List Controller) : Except String (Controller × List Controller) :=
  if declared.Type' = "" then
    let fresh : Controller := { Type' := expected, Name := name, Instances := [] }
    Except.ok (fresh, ctrls ++ [fresh])
  else if declared.Type' ≠ expected then
    Except.error (name ++ " expected to be of " ++ expected ++
      " type, but in the config it's " ++ declared.Type' ++ " of type")
  else
    Except.ok (declared, ctrls)

/-- The instance blocks of `prepareConfiguration`
(src/configuration/context.go lines 220-248), identical for source and
destination (including the error text, which says "in the source" in both
branches in the code): a controller without instances receives one
synthesized instance on a freshly allocated port; a declared first instance
must carry a non-zero port. -/
def completeControllerInstance (ctrl : Controller) (config : Config) :
    Except String (Controller × Config) :=
  match ctrl.Instances with
  | [] =>
    let pc := config.GetFreePort
    Except.ok
      ({ ctrl with
          Instances := [{ Name := ctrl.Name, Instance := ctrl.Name ++ "1", Port := pc.1 }] },
        pc.2)
  | inst :: _ =>
    if inst.Port = 0 then Except.error "the port should not be 0 in the source"
    else Except.ok (ctrl, config)

/-- Go: `func (service *Proxy) prepareConfiguration() error`
(src/configuration/context.go lines 159-257).  `sourceType` stands for
`service.source.ControllerType()`, `requiredDestination` for
`service.Controller.requiredDestination` and `exePath` for
`configuration.GetCurrentPath()`.  The Go method mutates local copies and
writes `service.configuration.Service` only on the success path (line 252),
so an error leaves the stored configuration untouched; the embedding
returns the updated `Config` on success and only the error otherwise. -/
def prepareConfiguration (sourceType requiredDestination exePath : String)
    (config : Config) : Except String Config :=
  match serviceTypeCheck exePath config with
  | Except.error e => Except.error e
  | Except.ok serviceConfig =>
    let sourceDeclared := lastNamed SourceName serviceConfig.Controllers
    let destinationDeclared := lastNamed DestinationName serviceConfig.Controllers
    match completeControllerType sourceType SourceName sourceDeclared
        serviceConfig.Controllers with
    | Except.error e => Except.error e
    | Except.ok (sourceConfig, ctrls1) =>
      match completeControllerType requiredDestination DestinationName
          destinationDeclared ctrls1 with
      | Except.error e => Except.error e
      | Except.ok (destinationConfig, ctrls2) =>
        match completeControllerInstance sourceConfig config with
        | Except.error e => Except.error e
        | Except.ok (sourceConfig2, config1) =>
          match completeControllerInstance destinationConfig config1 with
          | Except.error e => Except.error e
          | Except.ok (destinationConfig2, config2) =>
            let s1 := { serviceConfig with Controllers := ctrls2 }
            let s2 := (s1.SetController sourceConfig2).SetController destinationConfig2
            Except.ok { config2 with Service := s2 }

/-- Go: `func (service *Proxy) Prepare() error` (src/configuration/context.go
lines 284-321).  `sourceType?` is `none` when `service.source == nil`.  The
steps after `prepareConfiguration` (registering the destination and source
configs into the controller objects and injecting the proxy extension) act
on the controller objects, not on the configuration, and always succeed, so
the embedding returns `prepareConfiguration`'s outcome. -/
def Prepare (sourceType? : Option String) (requiredDestination exePath : String)
    (config : Config) : Except String Config :=
  match sourceType? with
  | none => Except.error "missing source. call service.SetDefaultSource"
  | some sourceType =>
    if requiredDestination = UnknownType then
      Except.error "missing the required destination. call service.Controller.RequireDestination"
    else
      prepareConfiguration sourceType requiredDestination exePath config

end proxy

namespace categorizer

/-- Observable events of one `Manager.categorize` loop iteration
(src/unnamed/part_000 lines 32-67): a fetch attempt against the upstream
(`RemoteLogFilter`) with its outcome, a sleep of a given number of seconds,
a send on the shared pusher, and the `panic(err)` escalation. -/
inductive LoopEv where
  | fetch (ok : Bool)
  | sleep (seconds : Nat)
  | send
  | panicked
deriving DecidableEq, Repr

/-- Event-trace embedding of the `for` loop of `Manager.categorize`
(src/unnamed/part_000 lines 32-67).  The first argument is the finite
oracle of upstream fetch outcomes observed (the loop itself is infinite;
the trace covers exactly the iterations those outcomes drive), the second
the oracle of send outcomes.  A failed fetch logs, sleeps 10 seconds and
retries (lines 34-40); a successful fetch builds one request and sends it
(lines 42-61); a failed send panics (lines 62-64); a successful iteration
ends with a 1 second sleep (line 66). -/
def categorizeTrace : List Bool → List Bool → List LoopEv
  | [], _ => []
  | false :: fetchRest, sendResults =>
      LoopEv.fetch false :: LoopEv.sleep 10 :: categorizeTrace fetchRest sendResults
  | true :: fetchRest, sendResults =>
      match sendResults with
      | [] => [LoopEv.fetch true]
      | sendOk :: sendRest =>
        if sendOk then
          LoopEv.fetch true :: LoopEv.send :: LoopEv.sleep 1 ::
            categorizeTrace fetchRest sendRest
        else
          [LoopEv.fetch true, LoopEv.send, LoopEv.panicked]

/-- Observable events of the send path of `Manager.categorize`
(src/unnamed/part_000 lines 59-61): acquiring and releasing a mutex
(identified by a numeric id) and the parts of one `SendMessage` call on the
shared pusher socket, split in two observable halves so that a fake
transport can witness whether two sends interleave. -/
inductive SendEv where
  | lock (g m : Nat)
  | sendPart (g part : Nat)
  | unlock (g m : Nat)
deriving DecidableEq, Repr

/-- State of the interleaving model: one program counter per goroutine
(0 = before Lock, 1 = locked, 2 = first half sent, 3 = second half sent,
4 = done) and the current holder of each mutex. -/
structure SimState where
  pcs : List Nat
  holders : List (Option Nat)
deriving DecidableEq, Repr

/-- One scheduler step of goroutine `g` through the send path
`mu.Lock(); manager.pusher.SendMessage(...); mu.Unlock()`
(src/unnamed/part_000 lines 59-61).  `muOf g` is the identity of the mutex
goroutine `g` locks.  A goroutine scheduled while its mutex is held by
another makes no progress (blocked on `Lock`). -/
def step (muOf : Nat → Nat) (s : SimState) (g : Nat) : SimState × List SendEv :=
  let pc := s.pcs.getD g 4
  let m := muOf g
  if pc = 0 then
    match s.holders.getD m none with
    | none =>
        ({ pcs := s.pcs.set g 1, holders := s.holders.set m (some g) }, [SendEv.lock g m])
    | some _ => (s, [])
  else if pc = 1 then ({ s with pcs := s.pcs.set g 2 }, [SendEv.sendPart g 1])
  else if pc = 2 then ({ s with pcs := s.pcs.set g 3 }, [SendEv.sendPart g 2])
  else if pc = 3 then
    ({ pcs := s.pcs.set g 4, holders := s.holders.set m none }, [SendEv.unlock g m])
  else (s, [])

/-- Run the interleaving model under an explicit schedule, collecting the
events the fake transport observes. -/
def run (muOf : Nat → Nat) : List Nat → SimState → List SendEv
  | [], _ => []
  | g :: rest, s =>
      let next := step muOf s g
      next.2 ++ run muOf rest next.1

/-- Initial state for `n` goroutines and `n` mutexes. -/
def initState (n : Nat) : SimState :=
  { pcs := List.replicate n 0, holders := List.replicate n none }

/-- The mutex layout of the code as written: `var mu sync.Mutex` is declared
inside `categorize` (src/unnamed/part_000 line 26), so every goroutine
spawned per smartcontract allocates its own fresh mutex — goroutine `g`
locks mutex `g`. -/
def muLocal (g : Nat) : Nat := g

/-- Modelled from the spec: the documented discipline ("a single shared
Controller client handle guarded by a mutual-exclusion lock") has every
goroutine lock one shared mutex. -/
def muShared (_ : Nat) : Nat := 0

/-- A trace observes every send atomically when between the two halves of
any goroutine's send no other send activity appears.  `inProgress` is the
goroutine whose send is currently half done. -/
def atomicFrom : List SendEv → Option Nat → Bool
  | [], _ => true
  | SendEv.sendPart g 1 :: rest, none => atomicFrom rest (some g)
  | SendEv.sendPart g 2 :: rest, some h => if g = h then atomicFrom rest none else false
  | SendEv.sendPart _ _ :: _, _ => false
  | SendEv.lock _ _ :: rest, inProgress => atomicFrom rest inProgress
  | SendEv.unlock _ _ :: rest, inProgress => atomicFrom rest inProgress

/-- A trace is atomic when no send interleaves with another. -/
def atomicSends (trace : List SendEv) : Bool := atomicFrom trace none

end categorizer

set_option maxRecDepth 8192

/-- Claim C9: `Host()` is a pure function of the execution-context type: a
context of type "development" returns the loopback address, a context of
type "default" returns the all-interfaces address, and the result depends
on no state beyond the context type. -/
theorem host_pure_function_of_type :
    (∀ src bin data : String,
        (configuration.Context.mk configuration.DevContext src bin data).Host = "localhost") ∧
    (∀ src bin data : String,
        (configuration.Context.mk configuration.DefaultContext src bin data).Host = "0.0.0.0") ∧
    (∀ c₁ c₂ : configuration.Context, c₁.Type' = c₂.Type' → c₁.Host = c₂.Host) := by
  refine ⟨fun _ _ _ => rfl, fun _ _ _ => rfl, fun c₁ c₂ h => ?_⟩
  simp [configuration.Context.Host, h]

/-- Witness for C9 at concrete contexts. -/
theorem host_pure_function_of_type_witness :
    (configuration.Context.mk "development" "s" "b" "d").Host =
      (configuration.Context.mk "development" "x" "y" "z").Host :=
  host_pure_function_of_type.2.2
    (configuration.Context.mk "development" "s" "b" "d")
    (configuration.Context.mk "development" "x" "y" "z") rfl

/-- Claim C8: looking up a controller name not borne by any controller fails
with an error that contains both the requested name and the service name;
symmetrically for extensions. -/
theorem lookup_missing_error_references_names :
    (∀ (s : sds.Service) (name : String), (∀ c ∈ s.Controllers, c.Name ≠ name) →
      ∃ msg : String, s.GetController name = Except.error msg ∧
        name.data <:+: msg.data ∧ s.Name.data <:+: msg.data) ∧
    (∀ (s : sds.Service) (name : String), (∀ e ∈ s.Extensions, e.Name ≠ name) →
      ∃ msg : String, s.GetExtension name = Except.error msg ∧
        name.data <:+: msg.data ∧ s.Name.data <:+: msg.data) := by
  constructor
  · intro s name h
    refine ⟨"'" ++ name ++ "' controller was not found in '" ++ s.Name ++
      "' service's configuration", ?_, ?_, ?_⟩
    · unfold sds.Service.GetController
      rw [List.find?_eq_none.mpr]
      intro c hc
      simp [h c hc]
    · exact ⟨"'".data, ("' controller was not found in '" ++ s.Name ++
        "' service's configuration").data, by simp⟩
    · exact ⟨("'" ++ name ++ "' controller was not found in '").data,
        "' service's configuration".data, by simp⟩
  · intro s name h
    refine ⟨"'" ++ name ++ "' extension was not found in '" ++ s.Name ++
      "' service's configuration", ?_, ?_, ?_⟩
    · unfold sds.Service.GetExtension
      rw [List.find?_eq_none.mpr]
      intro e he
      simp [h e he]
    · exact ⟨"'".data, ("' extension was not found in '" ++ s.Name ++
        "' service's configuration").data, by simp⟩
    · exact ⟨("'" ++ name ++ "' extension was not found in '").data,
        "' service's configuration".data, by simp⟩

/-- Witness for C8 at a concrete service without the requested controller. -/
theorem lookup_missing_error_references_names_witness :
    ∃ msg : String,
      (sds.Service.mk "proxy" "svc" "i" [] [] [] []).GetController "missing" =
        Except.error msg ∧
      "missing".data <:+: msg.data ∧ "svc".data <:+: msg.data :=
  lookup_missing_error_references_names.1
    (sds.Service.mk "proxy" "svc" "i" [] [] [] []) "missing" (by simp)

/-- Claim C7: a declared service type outside the recognized set makes
`Validate` return an error.  The Go method performs no writes to its
receiver, so it embeds as a pure function of the service and leaves the
configuration unmodified by construction, for every outcome. -/
theorem validate_unrecognized_service_type_errors :
    ∀ s : sds.Service, s.Type' ∉ sds.serviceTypes →
      s.Validate = some ("identity.ValidateServiceType: " ++ ("'" ++ s.Type' ++
        "' is an invalid service type")) := by
  intro s h
  simp [sds.Service.Validate, sds.ValidateServiceType, h]

/-- Witness for C7 at a concrete service of unrecognized type. -/
theorem validate_unrecognized_service_type_errors_witness :
    (sds.Service.mk "database" "svc" "i" [] [] [] []).Validate =
      some ("identity.ValidateServiceType: " ++ ("'" ++ "database" ++
        "' is an invalid service type")) :=
  validate_unrecognized_service_type_errors
    (sds.Service.mk "database" "svc" "i" [] [] [] []) (by decide)

/-- Claim C4 counterexample: on the service named "svc" with a controller
named "alpha" of unrecognized discipline type "bogus", `Validate` returns
an error, but the error message does not contain the controller's name
"alpha" — only the offending type flows into `ValidateControllerType`, so
the message cannot identify the controller by name. -/
theorem validate_error_omits_controller_name :
    (sds.Service.mk "independent" "svc" "i"
        [sds.Controller.mk "bogus" "alpha" []] [] [] []).Validate =
      some "controller.ValidateControllerType: 'bogus' is an invalid controller type" ∧
    ¬ ("alpha".data <:+:
        "controller.ValidateControllerType: 'bogus' is an invalid controller type".data) :=
  ⟨by decide, by decide⟩

/-- The controller loop of `Validate`: if some controller has an
unrecognized discipline type, the loop stops at the first such controller
and returns the wrapped `ValidateControllerType` error, which quotes that
controller's type. -/
theorem validateControllers_some_of_bad :
    ∀ cs : List sds.Controller, (∃ c ∈ cs, c.Type' ∉ sds.controllerTypes) →
      ∃ c, c ∈ cs ∧ c.Type' ∉ sds.controllerTypes ∧
        sds.validateControllers cs =
          some ("controller.ValidateControllerType: " ++ ("'" ++ c.Type' ++
            "' is an invalid controller type")) := by
  intro cs
  induction cs with
  | nil => rintro ⟨c, hc, -⟩; exact absurd hc (List.not_mem_nil c)
  | cons c rest ih =>
    intro hex
    by_cases hc : c.Type' ∈ sds.controllerTypes
    · obtain ⟨d, hd, hdt⟩ := hex
      rcases List.mem_cons.mp hd with rfl | hd'
      · exact absurd hc hdt
      · obtain ⟨e, he, het, heq⟩ := ih ⟨d, hd', hdt⟩
        refine ⟨e, List.mem_cons_of_mem c he, het, ?_⟩
        simpa [sds.validateControllers, sds.ValidateControllerType, hc] using heq
    · exact ⟨c, List.mem_cons_self c rest, hc,
        by simp [sds.validateControllers, sds.ValidateControllerType, hc]⟩

/-- Claim C4 amended: on a service whose declared type is recognized and
whose controllers include one with an unrecognized discipline type,
`Validate` returns an error that identifies the offending controller's
discipline type (quoting it); the controller's name does not flow into the
error. -/
theorem validate_unrecognized_controller_type_errors :
    ∀ s : sds.Service, s.Type' ∈ sds.serviceTypes →
      (∃ c ∈ s.Controllers, c.Type' ∉ sds.controllerTypes) →
      ∃ c, c ∈ s.Controllers ∧ c.Type' ∉ sds.controllerTypes ∧
        s.Validate = some ("controller.ValidateControllerType: " ++ ("'" ++ c.Type' ++
          "' is an invalid controller type")) := by
  intro s hs hex
  obtain ⟨c, hc, hct, heq⟩ := validateControllers_some_of_bad s.Controllers hex
  refine ⟨c, hc, hct, ?_⟩
  simpa [sds.Service.Validate, sds.ValidateServiceType, hs] using heq

/-- Witness for the amended C4 at a concrete service. -/
theorem validate_unrecognized_controller_type_errors_witness :
    ∃ c, c ∈ (sds.Service.mk "independent" "svc" "i"
        [sds.Controller.mk "bogus" "alpha" []] [] [] []).Controllers ∧
      c.Type' ∉ sds.controllerTypes ∧
      (sds.Service.mk "independent" "svc" "i"
          [sds.Controller.mk "bogus" "alpha" []] [] [] []).Validate =
        some ("controller.ValidateControllerType: " ++ ("'" ++ c.Type' ++
          "' is an invalid controller type")) :=
  validate_unrecognized_controller_type_errors
    (sds.Service.mk "independent" "svc" "i" [sds.Controller.mk "bogus" "alpha" []] [] [] [])
    (by decide) ⟨sds.Controller.mk "bogus" "alpha" [], by simp, by decide⟩

/-- As long as every send succeeds, the producer loop never panics: a fetch
failure only logs, sleeps and retries. -/
theorem categorize_no_panic_of_sends_ok :
    ∀ (fr sr : List Bool), (∀ b ∈ sr, b = true) →
      categorizer.LoopEv.panicked ∉ categorizer.categorizeTrace fr sr := by
  intro fr
  induction fr with
  | nil => intro sr _; simp [categorizer.categorizeTrace]
  | cons f rest ih =>
    intro sr hsr
    cases f with
    | false =>
      have h2 := ih sr hsr
      simp [categorizer.categorizeTrace, h2]
    | true =>
      match sr, hsr with
      | [], _ => simp [categorizer.categorizeTrace]
      | sOk :: sRest, hsr =>
        have h1 : sOk = true := hsr sOk (List.mem_cons_self _ _)
        subst h1
        have h2 := ih sRest (fun b hb => hsr b (List.mem_cons_of_mem _ hb))
        simp [categorizer.categorizeTrace, h2]

/-- Claim C6: with an upstream that fails twice and then succeeds, the
producer loop performs exactly three fetch attempts, sleeps 10 seconds after
each of the two failures, sends exactly one envelope after the success
(then sleeps 1 second before the next iteration); fetch failures are never
escalated (no panic as long as sends succeed), while a send failure after a
successful fetch panics. -/
theorem categorize_fail_fail_success_trace :
    categorizer.categorizeTrace [false, false, true] [true] =
      [categorizer.LoopEv.fetch false, categorizer.LoopEv.sleep 10,
       categorizer.LoopEv.fetch false, categorizer.LoopEv.sleep 10,
       categorizer.LoopEv.fetch true, categorizer.LoopEv.send,
       categorizer.LoopEv.sleep 1] ∧
    ((categorizer.categorizeTrace [false, false, true] [true]).countP
        (fun e => match e with | categorizer.LoopEv.fetch _ => true | _ => false)) = 3 ∧
    ((categorizer.categorizeTrace [false, false, true] [true]).countP
        (fun e => match e with | categorizer.LoopEv.send => true | _ => false)) = 1 ∧
    (∀ (fr sr : List Bool), (∀ b ∈ sr, b = true) →
      categorizer.LoopEv.panicked ∉ categorizer.categorizeTrace fr sr) ∧
    categorizer.categorizeTrace [true] [false] =
      [categorizer.LoopEv.fetch true, categorizer.LoopEv.send,
       categorizer.LoopEv.panicked] :=
  ⟨rfl, rfl, rfl, categorize_no_panic_of_sends_ok, rfl⟩

/-- Witness for C6's universally quantified conjunct at a concrete oracle. -/
theorem categorize_fail_fail_success_trace_witness :
    categorizer.LoopEv.panicked ∉ categorizer.categorizeTrace [false, true] [true] :=
  categorize_fail_fail_success_trace.2.2.2.1 [false, true] [true] (by simp)

/-- Claim C5 (refuted by the code): `var mu sync.Mutex` is declared inside
`categorize`, so each per-smartcontract goroutine locks its own fresh mutex
(`muLocal`).  Under the alternating schedule both goroutines acquire their
(distinct) locks and the fake transport observes their sends interleaved —
`atomicSends` is false — whereas the documented single shared lock
(`muShared`) keeps every send atomic on the corresponding schedule. -/
theorem categorize_local_mutex_interleaves_sends :
    categorizer.run categorizer.muLocal [0, 1, 0, 1, 0, 1, 0, 1] (categorizer.initState 2) =
      [categorizer.SendEv.lock 0 0, categorizer.SendEv.lock 1 1,
       categorizer.SendEv.sendPart 0 1, categorizer.SendEv.sendPart 1 1,
       categorizer.SendEv.sendPart 0 2, categorizer.SendEv.sendPart 1 2,
       categorizer.SendEv.unlock 0 0, categorizer.SendEv.unlock 1 1] ∧
    categorizer.atomicSends
      (categorizer.run categorizer.muLocal [0, 1, 0, 1, 0, 1, 0, 1]
        (categorizer.initState 2)) = false ∧
    categorizer.atomicSends
      (categorizer.run categorizer.muShared [0, 1, 0, 1, 0, 1, 0, 1, 1, 1, 1, 1]
        (categorizer.initState 2)) = true :=
  ⟨rfl, rfl, rfl⟩

namespace proxy

theorem lastNamed_go_no_match (name : String) (acc : Controller) :
    ∀ cs : List Controller, (∀ c ∈ cs, c.Name ≠ name) →
      cs.foldl (fun acc c => if c.Name = name then c else acc) acc = acc := by
  intro cs
  induction cs generalizing acc with
  | nil => intro _; rfl
  | cons c rest ih =>
    intro h
    simp only [List.foldl_cons, if_neg (h c (List.mem_cons_self c rest))]
    exact ih acc (fun d hd => h d (List.mem_cons_of_mem c hd))

theorem lastNamed_append_no_match (name : String) (base l : List Controller)
    (h : ∀ c ∈ base, c.Name ≠ name) :
    lastNamed name (base ++ l) = lastNamed name l := by
  unfold lastNamed
  rw [List.foldl_append, lastNamed_go_no_match name _ base h]

theorem setControllerList_append_no_match (ctrl : Controller) (base l : List Controller)
    (h : ∀ c ∈ base, c.Name ≠ ctrl.Name) :
    setControllerList (base ++ l) ctrl = base ++ setControllerList l ctrl := by
  induction base with
  | nil => rfl
  | cons c rest ih =>
    simp only [List.cons_append, setControllerList,
      if_neg (h c (List.mem_cons_self c rest)), List.append_eq]
    rw [ih (fun d hd => h d (List.mem_cons_of_mem c hd))]

theorem prepareConfiguration_of_empty_type
    (st rd exe : String) (cfg : Config) (h : cfg.Service.Type' = "") :
    prepareConfiguration st rd exe cfg = Except.ok
      { Name := cfg.Name,
        nextFreePort := cfg.nextFreePort + 2,
        Service :=
          { Type' := ProxyType, Name := "", Url := exe,
            Instance := cfg.Name ++ " 1",
            Controllers :=
              [ { Type' := st, Name := SourceName,
                  Instances := [{ Name := SourceName, Instance := SourceName ++ "1",
                                  Port := cfg.nextFreePort + 1 }] },
                { Type' := rd, Name := DestinationName,
                  Instances := [{ Name := DestinationName, Instance := DestinationName ++ "1",
                                  Port := cfg.nextFreePort + 2 }] } ],
            Proxies := [], Extensions := [], Pipelines := [] } } := by
  simp [prepareConfiguration, serviceTypeCheck, h, lastNamed, completeControllerType,
        completeControllerInstance, Config.GetFreePort, Service.SetController,
        setControllerList, SourceName, DestinationName]

theorem prepareConfiguration_no_source_dest
    (st rd exe : String) (cfg : Config)
    (h : ∀ c ∈ cfg.Service.Controllers, c.Name ≠ SourceName ∧ c.Name ≠ DestinationName)
    (htype : cfg.Service.Type' = ProxyType) :
    prepareConfiguration st rd exe cfg = Except.ok
      { Name := cfg.Name,
        nextFreePort := cfg.nextFreePort + 2,
        Service :=
          { cfg.Service with Controllers := cfg.Service.Controllers ++
              [ { Type' := st, Name := SourceName,
                  Instances := [{ Name := SourceName, Instance := SourceName ++ "1",
                                  Port := cfg.nextFreePort + 1 }] },
                { Type' := rd, Name := DestinationName,
                  Instances := [{ Name := DestinationName, Instance := DestinationName ++ "1",
                                  Port := cfg.nextFreePort + 2 }] } ] } } := by
  have hP : (ProxyType = "") = False := by simp [ProxyType]
  have hsrc : lastNamed SourceName cfg.Service.Controllers = ⟨"", "", []⟩ :=
    lastNamed_go_no_match SourceName _ _ (fun c hc => (h c hc).1)
  have hdst : lastNamed DestinationName cfg.Service.Controllers = ⟨"", "", []⟩ :=
    lastNamed_go_no_match DestinationName _ _ (fun c hc => (h c hc).2)
  have hset1 : setControllerList (cfg.Service.Controllers ++
      [(⟨st, SourceName, []⟩ : Controller), ⟨rd, DestinationName, []⟩])
      ⟨st, SourceName, [⟨SourceName, SourceName ++ "1", cfg.nextFreePort + 1⟩]⟩ =
      cfg.Service.Controllers ++
      [⟨st, SourceName, [⟨SourceName, SourceName ++ "1", cfg.nextFreePort + 1⟩]⟩,
       ⟨rd, DestinationName, []⟩] := by
    rw [setControllerList_append_no_match _ _ _ (fun c hc => (h c hc).1)]
    simp [setControllerList, SourceName]
  have hset2 : setControllerList (cfg.Service.Controllers ++
      [(⟨st, SourceName, [⟨SourceName, SourceName ++ "1", cfg.nextFreePort + 1⟩]⟩ : Controller),
       ⟨rd, DestinationName, []⟩])
      ⟨rd, DestinationName, [⟨DestinationName, DestinationName ++ "1", cfg.nextFreePort + 2⟩]⟩ =
      cfg.Service.Controllers ++
      [⟨st, SourceName, [⟨SourceName, SourceName ++ "1", cfg.nextFreePort + 1⟩]⟩,
       ⟨rd, DestinationName, [⟨DestinationName, DestinationName ++ "1", cfg.nextFreePort + 2⟩]⟩] := by
    rw [setControllerList_append_no_match _ _ _ (fun c hc => (h c hc).2)]
    simp [setControllerList, SourceName, DestinationName]
  simp [prepareConfiguration, serviceTypeCheck, htype, hP, hsrc, hdst,
    completeControllerType, completeControllerInstance, Config.GetFreePort,
    Service.SetController, hset1, hset2]

theorem prepareConfiguration_completed_idempotent
    (st rd exe : String) (cfg : Config)
    (base : List Controller) (si di : ControllerInstance)
    (hbase : ∀ c ∈ base, c.Name ≠ SourceName ∧ c.Name ≠ DestinationName)
    (hst : st ≠ "") (hrd : rd ≠ "")
    (htype : cfg.Service.Type' = ProxyType)
    (hctrls : cfg.Service.Controllers =
       base ++ [⟨st, SourceName, [si]⟩, ⟨rd, DestinationName, [di]⟩])
    (hsp : si.Port ≠ 0) (hdp : di.Port ≠ 0) :
    prepareConfiguration st rd exe cfg = Except.ok cfg := by
  obtain ⟨nm, sv, np⟩ := cfg
  obtain ⟨t, n, u, i, cs, ps, es, pls⟩ := sv
  simp only at htype hctrls
  subst htype
  subst hctrls
  have hP : (ProxyType = "") = False := by simp [ProxyType]
  have hsrcL : lastNamed SourceName
      (base ++ [(⟨st, SourceName, [si]⟩ : Controller), ⟨rd, DestinationName, [di]⟩]) =
      ⟨st, SourceName, [si]⟩ := by
    rw [lastNamed_append_no_match _ _ _ (fun c hc => (hbase c hc).1)]
    simp [lastNamed, SourceName, DestinationName]
  have hdstL : lastNamed DestinationName
      (base ++ [(⟨st, SourceName, [si]⟩ : Controller), ⟨rd, DestinationName, [di]⟩]) =
      ⟨rd, DestinationName, [di]⟩ := by
    rw [lastNamed_append_no_match _ _ _ (fun c hc => (hbase c hc).2)]
    simp [lastNamed, SourceName, DestinationName]
  have hset1 : setControllerList
      (base ++ [(⟨st, SourceName, [si]⟩ : Controller), ⟨rd, DestinationName, [di]⟩])
      ⟨st, SourceName, [si]⟩ =
      base ++ [(⟨st, SourceName, [si]⟩ : Controller), ⟨rd, DestinationName, [di]⟩] := by
    rw [setControllerList_append_no_match _ _ _ (fun c hc => (hbase c hc).1)]
    simp [setControllerList, SourceName]
  have hset2 : setControllerList
      (base ++ [(⟨st, SourceName, [si]⟩ : Controller), ⟨rd, DestinationName, [di]⟩])
      ⟨rd, DestinationName, [di]⟩ =
      base ++ [(⟨st, SourceName, [si]⟩ : Controller), ⟨rd, DestinationName, [di]⟩] := by
    rw [setControllerList_append_no_match _ _ _ (fun c hc => (hbase c hc).2)]
    simp [setControllerList, SourceName, DestinationName]
  simp [prepareConfiguration, serviceTypeCheck, hP, hsrcL, hdstL,
    completeControllerType, completeControllerInstance, hst, hrd, hsp, hdp,
    Service.SetController, hset1, hset2]


end proxy

theorem prepareConfiguration_declared_source_port0
    (st rd exe : String) (cfg : proxy.Config)
    (inst : proxy.ControllerInstance) (rest : List proxy.ControllerInstance)
    (ht : cfg.Service.Type' ≠ "")
    (hs : (proxy.lastNamed proxy.SourceName cfg.Service.Controllers).Type' ≠ "")
    (hi : (proxy.lastNamed proxy.SourceName cfg.Service.Controllers).Instances = inst :: rest)
    (hp : inst.Port = 0) :
    ∃ e, proxy.prepareConfiguration st rd exe cfg = Except.error e := by
  have hP : (proxy.ProxyType = "") = False := by simp [proxy.ProxyType]
  by_cases hpt : cfg.Service.Type' = proxy.ProxyType
  · by_cases hstq : (proxy.lastNamed proxy.SourceName cfg.Service.Controllers).Type' = st
    · have hstne : st ≠ "" := fun he => hs (hstq.trans he)
      have hsrcStep : proxy.completeControllerType st proxy.SourceName
          (proxy.lastNamed proxy.SourceName cfg.Service.Controllers)
          cfg.Service.Controllers =
          Except.ok (proxy.lastNamed proxy.SourceName cfg.Service.Controllers,
            cfg.Service.Controllers) := by
        simp [proxy.completeControllerType, hs, hstq, hstne]
      have hinstStep : proxy.completeControllerInstance
          (proxy.lastNamed proxy.SourceName cfg.Service.Controllers) cfg =
          Except.error "the port should not be 0 in the source" := by
        unfold proxy.completeControllerInstance
        rw [hi]
        simp [hp]
      cases hdm : proxy.completeControllerType rd proxy.DestinationName
          (proxy.lastNamed proxy.DestinationName cfg.Service.Controllers)
          cfg.Service.Controllers with
      | error e =>
          refine ⟨e, ?_⟩
          simp [proxy.prepareConfiguration, proxy.serviceTypeCheck, ht, hpt, hP,
            hsrcStep, hdm]
      | ok pr =>
          obtain ⟨dc, ctrls2⟩ := pr
          refine ⟨"the port should not be 0 in the source", ?_⟩
          simp [proxy.prepareConfiguration, proxy.serviceTypeCheck, ht, hpt, hP,
            hsrcStep, hdm, hinstStep]
    · have hsrcStep : proxy.completeControllerType st proxy.SourceName
          (proxy.lastNamed proxy.SourceName cfg.Service.Controllers)
          cfg.Service.Controllers =
          Except.error (proxy.SourceName ++ " expected to be of " ++ st ++
            " type, but in the config it's " ++
            (proxy.lastNamed proxy.SourceName cfg.Service.Controllers).Type' ++ " of type") := by
        simp [proxy.completeControllerType, hs, hstq]
      refine ⟨proxy.SourceName ++ " expected to be of " ++ st ++
        " type, but in the config it's " ++
        (proxy.lastNamed proxy.SourceName cfg.Service.Controllers).Type' ++ " of type", ?_⟩
      simp [proxy.prepareConfiguration, proxy.serviceTypeCheck, ht, hpt, hP, hsrcStep]
  · refine ⟨"service type is overwritten. It's not proxy its '" ++
        cfg.Service.Type' ++ "'", ?_⟩
    simp [proxy.prepareConfiguration, proxy.serviceTypeCheck, ht, hpt]

/-- Claim C2 counterexample: a ServiceConfig of proxy type that declares a
controller named "source" whose first instance has port 0 but whose
discipline type is empty makes `Prepare` SUCCEED: the empty-typed
declaration is treated as absent, a fresh source controller is synthesized
with a newly allocated port, and destination completion proceeds — no error
is returned, contradicting the claim as stated. -/
theorem prepare_port0_source_with_empty_type_succeeds :
    (proxy.Prepare (some "replier") "pusher" "/exe"
        ⟨"app", ⟨"proxy", "n", "u", "i",
          [⟨"", "source", [⟨"a", "a1", 0⟩]⟩], [], [], []⟩, 0⟩).isOk = true := by
  rfl

/-- Claim C2 amended: on a ServiceConfig whose declared service type is
non-empty and whose scanned controller named "source" has a non-empty
discipline type and a first instance with port 0, `Prepare()` returns an
error; since the stored configuration is only written back on the success
path, destination completion is not committed and no allocated port is
recorded. -/
theorem prepare_declared_source_port0_errors :
    ∀ (st? : Option String) (rd exe : String) (cfg : proxy.Config)
      (inst : proxy.ControllerInstance) (rest : List proxy.ControllerInstance),
      cfg.Service.Type' ≠ "" →
      (proxy.lastNamed proxy.SourceName cfg.Service.Controllers).Type' ≠ "" →
      (proxy.lastNamed proxy.SourceName cfg.Service.Controllers).Instances = inst :: rest →
      inst.Port = 0 →
      ∃ e, proxy.Prepare st? rd exe cfg = Except.error e := by
  intro st? rd exe cfg inst rest ht hs hi hp
  cases st? with
  | none => exact ⟨_, rfl⟩
  | some st =>
    by_cases hrd : rd = proxy.UnknownType
    · exact ⟨"missing the required destination. call service.Controller.RequireDestination",
        by simp [proxy.Prepare, hrd]⟩
    · obtain ⟨e, he⟩ :=
        prepareConfiguration_declared_source_port0 st rd exe cfg inst rest ht hs hi hp
      exact ⟨e, by simp [proxy.Prepare, hrd, he]⟩

/-- Witness for the amended C2 at a concrete config. -/
theorem prepare_declared_source_port0_errors_witness :
    ∃ e, proxy.Prepare (some "replier") "pusher" "/exe"
        ⟨"app", ⟨"proxy", "n", "u", "i",
          [⟨"replier", "source", [⟨"a", "a1", 0⟩]⟩], [], [], []⟩, 0⟩ = Except.error e :=
  prepare_declared_source_port0_errors (some "replier") "pusher" "/exe"
    ⟨"app", ⟨"proxy", "n", "u", "i",
      [⟨"replier", "source", [⟨"a", "a1", 0⟩]⟩], [], [], []⟩, 0⟩
    ⟨"a", "a1", 0⟩ [] (by decide) (by decide) (by decide) rfl

/-- Claim C3: during configuration completion, an empty declared service
type is synthesized as the proxy type with the generated instance name
(`config.Name ++ " 1"`) and the type check raises no error; a non-empty
declared type different from the proxy type is a configuration error
returned (not panicked). -/
theorem prepare_service_type_completion :
    (∀ (st rd exe : String) (cfg : proxy.Config), cfg.Service.Type' = "" →
      ∃ cfg' : proxy.Config, proxy.prepareConfiguration st rd exe cfg = Except.ok cfg' ∧
        cfg'.Service.Type' = proxy.ProxyType ∧
        cfg'.Service.Instance = cfg.Name ++ " 1") ∧
    (∀ (st rd exe : String) (cfg : proxy.Config), cfg.Service.Type' ≠ "" →
      cfg.Service.Type' ≠ proxy.ProxyType →
      proxy.prepareConfiguration st rd exe cfg =
        Except.error ("service type is overwritten. It's not proxy its '" ++
          cfg.Service.Type' ++ "'")) := by
  constructor
  · intro st rd exe cfg h
    exact ⟨_, proxy.prepareConfiguration_of_empty_type st rd exe cfg h, rfl, rfl⟩
  · intro st rd exe cfg h1 h2
    simp [proxy.prepareConfiguration, proxy.serviceTypeCheck, h1, h2]

/-- Witness for C3 at concrete configs for both branches. -/
theorem prepare_service_type_completion_witness :
    (∃ cfg' : proxy.Config,
      proxy.prepareConfiguration "replier" "pusher" "/exe"
          ⟨"app", ⟨"", "n", "u", "i", [], [], [], []⟩, 0⟩ = Except.ok cfg' ∧
        cfg'.Service.Type' = proxy.ProxyType ∧
        cfg'.Service.Instance = "app" ++ " 1") ∧
    proxy.prepareConfiguration "replier" "pusher" "/exe"
        ⟨"app", ⟨"database", "n", "u", "i", [], [], [], []⟩, 0⟩ =
      Except.error ("service type is overwritten. It's not proxy its '" ++
        "database" ++ "'") :=
  ⟨prepare_service_type_completion.1 "replier" "pusher" "/exe"
      ⟨"app", ⟨"", "n", "u", "i", [], [], [], []⟩, 0⟩ rfl,
    prepare_service_type_completion.2 "replier" "pusher" "/exe"
      ⟨"app", ⟨"database", "n", "u", "i", [], [], [], []⟩, 0⟩ (by decide) (by decide)⟩

/-- Claim C10: when the declared service type is empty,
`prepareConfiguration` replaces the entire ServiceConfig by a freshly
constructed one carrying only the synthesized type, url and instance name —
controllers, proxies, extensions and pipelines declared alongside the empty
type are discarded — and the synthesized source and destination controllers
are then added to this fresh config. -/
theorem prepare_empty_type_discards_declared_config :
    ∀ (st rd exe : String) (cfg : proxy.Config), cfg.Service.Type' = "" →
      proxy.prepareConfiguration st rd exe cfg = Except.ok
        { Name := cfg.Name,
          nextFreePort := cfg.nextFreePort + 2,
          Service :=
            { Type' := proxy.ProxyType, Name := "", Url := exe,
              Instance := cfg.Name ++ " 1",
              Controllers :=
                [ ⟨st, proxy.SourceName,
                    [⟨proxy.SourceName, proxy.SourceName ++ "1", cfg.nextFreePort + 1⟩]⟩,
                  ⟨rd, proxy.DestinationName,
                    [⟨proxy.DestinationName, proxy.DestinationName ++ "1", cfg.nextFreePort + 2⟩]⟩ ],
              Proxies := [], Extensions := [], Pipelines := [] } } :=
  fun st rd exe cfg h => proxy.prepareConfiguration_of_empty_type st rd exe cfg h

/-- Witness for C10: declared controllers, proxies, extensions and
pipelines are discarded at a concrete config. -/
theorem prepare_empty_type_discards_declared_config_witness :
    proxy.prepareConfiguration "replier" "pusher" "/exe"
        ⟨"app", ⟨"", "n", "u", "i",
          [⟨"router", "extra", []⟩], ["p1"], ["e1"], ["pl1"]⟩, 10⟩ = Except.ok
      { Name := "app",
        nextFreePort := 12,
        Service :=
          { Type' := proxy.ProxyType, Name := "", Url := "/exe",
            Instance := "app" ++ " 1",
            Controllers :=
              [ ⟨"replier", proxy.SourceName,
                  [⟨proxy.SourceName, proxy.SourceName ++ "1", 11⟩]⟩,
                ⟨"pusher", proxy.DestinationName,
                  [⟨proxy.DestinationName, proxy.DestinationName ++ "1", 12⟩]⟩ ],
            Proxies := [], Extensions := [], Pipelines := [] } } :=
  prepare_empty_type_discards_declared_config "replier" "pusher" "/exe"
    ⟨"app", ⟨"", "n", "u", "i", [⟨"router", "extra", []⟩], ["p1"], ["e1"], ["pl1"]⟩, 10⟩ rfl

/-- Claim C1: on a ServiceConfig declaring no "source" and no "destination"
controller (and a type that lets `Prepare` proceed), `Prepare` synthesizes
both controllers, each with exactly one instance on a non-zero port, the
two ports are distinct, and `Prepare` run again on the completed
configuration returns it unchanged (no error, no new port allocated). -/
theorem prepare_synthesizes_distinct_ports_and_idempotent :
    ∀ (st rd exe : String) (cfg : proxy.Config),
      st ≠ "" → rd ≠ "" →
      (∀ c ∈ cfg.Service.Controllers,
        c.Name ≠ proxy.SourceName ∧ c.Name ≠ proxy.DestinationName) →
      (cfg.Service.Type' = "" ∨ cfg.Service.Type' = proxy.ProxyType) →
      ∃ (cfg' : proxy.Config) (psrc pdst : Nat),
        proxy.Prepare (some st) rd exe cfg = Except.ok cfg' ∧
        (proxy.lastNamed proxy.SourceName cfg'.Service.Controllers).Instances =
          [⟨proxy.SourceName, proxy.SourceName ++ "1", psrc⟩] ∧
        (proxy.lastNamed proxy.DestinationName cfg'.Service.Controllers).Instances =
          [⟨proxy.DestinationName, proxy.DestinationName ++ "1", pdst⟩] ∧
        psrc ≠ 0 ∧ pdst ≠ 0 ∧ psrc ≠ pdst ∧
        proxy.Prepare (some st) rd exe cfg' = Except.ok cfg' := by
  intro st rd exe cfg hst hrd hnone htype
  have hrdU : ¬ rd = proxy.UnknownType := hrd
  have hprep : ∀ c : proxy.Config,
      proxy.Prepare (some st) rd exe c = proxy.prepareConfiguration st rd exe c := by
    intro c
    simp [proxy.Prepare, hrdU]
  rcases htype with h | h
  · -- empty declared type: the fresh config carries the two synthesized controllers
    refine ⟨_, cfg.nextFreePort + 1, cfg.nextFreePort + 2,
      (hprep cfg).trans (proxy.prepareConfiguration_of_empty_type st rd exe cfg h),
      ?_, ?_, ?_, ?_, ?_, ?_⟩
    · simp [proxy.lastNamed, proxy.SourceName, proxy.DestinationName]
    · simp [proxy.lastNamed, proxy.SourceName, proxy.DestinationName]
    · omega
    · omega
    · omega
    · rw [hprep]
      exact proxy.prepareConfiguration_completed_idempotent st rd exe _
        [] ⟨proxy.SourceName, proxy.SourceName ++ "1", cfg.nextFreePort + 1⟩
        ⟨proxy.DestinationName, proxy.DestinationName ++ "1", cfg.nextFreePort + 2⟩
        (by simp) hst hrd rfl (by simp) (Nat.succ_ne_zero _) (Nat.succ_ne_zero _)
  · -- declared proxy type: the two synthesized controllers are appended
    refine ⟨_, cfg.nextFreePort + 1, cfg.nextFreePort + 2,
      (hprep cfg).trans (proxy.prepareConfiguration_no_source_dest st rd exe cfg hnone h),
      ?_, ?_, ?_, ?_, ?_, ?_⟩
    · rw [show ({ cfg.Service with Controllers := cfg.Service.Controllers ++
          [⟨st, proxy.SourceName,
              [⟨proxy.SourceName, proxy.SourceName ++ "1", cfg.nextFreePort + 1⟩]⟩,
            ⟨rd, proxy.DestinationName,
              [⟨proxy.DestinationName, proxy.DestinationName ++ "1", cfg.nextFreePort + 2⟩]⟩] } :
          proxy.Service).Controllers = cfg.Service.Controllers ++
          [⟨st, proxy.SourceName,
              [⟨proxy.SourceName, proxy.SourceName ++ "1", cfg.nextFreePort + 1⟩]⟩,
            ⟨rd, proxy.DestinationName,
              [⟨proxy.DestinationName, proxy.DestinationName ++ "1", cfg.nextFreePort + 2⟩]⟩]
          from rfl,
        proxy.lastNamed_append_no_match _ _ _ (fun c hc => (hnone c hc).1)]
      simp [proxy.lastNamed, proxy.SourceName, proxy.DestinationName]
    · rw [show ({ cfg.Service with Controllers := cfg.Service.Controllers ++
          [⟨st, proxy.SourceName,
              [⟨proxy.SourceName, proxy.SourceName ++ "1", cfg.nextFreePort + 1⟩]⟩,
            ⟨rd, proxy.DestinationName,
              [⟨proxy.DestinationName, proxy.DestinationName ++ "1", cfg.nextFreePort + 2⟩]⟩] } :
          proxy.Service).Controllers = cfg.Service.Controllers ++
          [⟨st, proxy.SourceName,
              [⟨proxy.SourceName, proxy.SourceName ++ "1", cfg.nextFreePort + 1⟩]⟩,
            ⟨rd, proxy.DestinationName,
              [⟨proxy.DestinationName, proxy.DestinationName ++ "1", cfg.nextFreePort + 2⟩]⟩]
          from rfl,
        proxy.lastNamed_append_no_match _ _ _ (fun c hc => (hnone c hc).2)]
      simp [proxy.lastNamed, proxy.SourceName, proxy.DestinationName]
    · omega
    · omega
    · omega
    · rw [hprep]
      exact proxy.prepareConfiguration_completed_idempotent st rd exe _
        cfg.Service.Controllers
        ⟨proxy.SourceName, proxy.SourceName ++ "1", cfg.nextFreePort + 1⟩
        ⟨proxy.DestinationName, proxy.DestinationName ++ "1", cfg.nextFreePort + 2⟩
        hnone hst hrd h rfl (Nat.succ_ne_zero _) (Nat.succ_ne_zero _)

/-- Witness for C1 at a concrete config. -/
theorem prepare_synthesizes_distinct_ports_and_idempotent_witness :
    ∃ (cfg' : proxy.Config) (psrc pdst : Nat),
      proxy.Prepare (some "replier") "pusher" "/exe"
          ⟨"app", ⟨"", "n", "u", "i", [], [], [], []⟩, 0⟩ = Except.ok cfg' ∧
      (proxy.lastNamed proxy.SourceName cfg'.Service.Controllers).Instances =
        [⟨proxy.SourceName, proxy.SourceName ++ "1", psrc⟩] ∧
      (proxy.lastNamed proxy.DestinationName cfg'.Service.Controllers).Instances =
        [⟨proxy.DestinationName, proxy.DestinationName ++ "1", pdst⟩] ∧
      psrc ≠ 0 ∧ pdst ≠ 0 ∧ psrc ≠ pdst ∧
      proxy.Prepare (some "replier") "pusher" "/exe" cfg' = Except.ok cfg' :=
  prepare_synthesizes_distinct_ports_and_idempotent "replier" "pusher" "/exe"
    ⟨"app", ⟨"", "n", "u", "i", [], [], [], []⟩, 0⟩
    (by decide) (by decide) (by simp) (Or.inl rfl)
